import Mathlib

/-!
Shallow embedding of `src/queries.js`: a script that runs a fixed sequence of
sixteen MongoDB operations against a `books` collection.  Documents are
modelled as records of optional fields (the data model of the spec, §3), a
collection as a list of documents, and each driver call as a pure function on
that model, following MongoDB's documented semantics for the exact literal
queries the script issues.  The try/catch/finally control flow of
`runQueries` is modelled by an explicit step-by-step executor.
-/

namespace Queries

/-- A book document: `title`, `author`, `genre`, `published_year`, `price`,
`in_stock`.  Every field is optional, as MongoDB documents have no enforced
schema (spec §3: no invariant is enforced by this code). -/
structure Doc where
  title : Option String
  author : Option String
  genre : Option String
  published_year : Option Int
  price : Option Rat
  in_stock : Option Bool
deriving DecidableEq

/-- The `books` collection: a finite ordered multiset of documents. -/
abbrev Collection := List Doc

/-- `updateOne(filter, {$set ...})`: MongoDB updates the first matching
document only and leaves everything else in place; with no match it is a
no-op that reports success. -/
def updateFirst (p : Doc → Prop) [DecidablePred p] (f : Doc → Doc) :
    Collection → Collection
  | [] => []
  | d :: ds => if p d then f d :: ds else d :: updateFirst p f ds

/-- `deleteOne(filter)`: MongoDB removes the first matching document only;
with no match it is a no-op that reports success. -/
def deleteFirst (p : Doc → Prop) [DecidablePred p] : Collection → Collection
  | [] => []
  | d :: ds => if p d then ds else d :: deleteFirst p ds

/-- `findOne(filter)`: the first matching document, if any. -/
def findOne (p : Doc → Prop) [DecidablePred p] (c : Collection) : Option Doc :=
  c.find? (fun d => decide (p d))

/-- The filter `{ title: "1984" }` issued by step 4 (line 39). -/
def matchesTitle1984 (d : Doc) : Prop := d.title = some "1984"

instance : DecidablePred matchesTitle1984 := fun d =>
  inferInstanceAs (Decidable (d.title = some "1984"))

/-- The update `{ $set: { price: 15.99 } }` issued by step 4 (line 40):
it writes the `price` field and nothing else. -/
def setPrice1599 (d : Doc) : Doc := { d with price := some (15.99 : Rat) }

/-- The filter `{ title: "Moby Dick" }` issued by step 5 (line 46). -/
def matchesMobyDick (d : Doc) : Prop := d.title = some "Moby Dick"

instance : DecidablePred matchesMobyDick := fun d =>
  inferInstanceAs (Decidable (d.title = some "Moby Dick"))

/-- Step 4: `books.updateOne({title:"1984"}, {$set:{price:15.99}})`. -/
def step4Update (c : Collection) : Collection :=
  updateFirst matchesTitle1984 setPrice1599 c

/-- Step 4's read-back: `books.findOne({title:"1984"})` (line 42). -/
def step4ReadBack (c : Collection) : Option Doc := findOne matchesTitle1984 c

/-- Step 5: `books.deleteOne({title:"Moby Dick"})`. -/
def step5Delete (c : Collection) : Collection := deleteFirst matchesMobyDick c

/-- Step 5's log line (line 47): printed unconditionally, without consulting
the delete's result. -/
def step5Message (_ : Collection) : String := "Deleted 'Moby Dick' successfully"

/-- Step 1: `books.find({genre:"Fiction"})`. -/
def step1FindFiction (c : Collection) : Collection :=
  c.filter (fun d => decide (d.genre = some "Fiction"))

/-- Step 2: `books.find({published_year: {$gt: 2000}})`. -/
def step2FindAfter2000 (c : Collection) : Collection :=
  c.filter (fun d => decide (∃ y, d.published_year = some y ∧ 2000 < y))

/-- Step 3: `books.find({author:"George Orwell"})`. -/
def step3FindOrwell (c : Collection) : Collection :=
  c.filter (fun d => decide (d.author = some "George Orwell"))

/-- Step 6: `books.find({in_stock:true, published_year:{$gt:2010}})`. -/
def step6InStockAfter2010 (c : Collection) : Collection :=
  c.filter (fun d =>
    decide (d.in_stock = some true ∧ ∃ y, d.published_year = some y ∧ 2010 < y))

/-- The shape returned by step 7's projection `{_id:0, title:1, author:1, price:1}`. -/
structure ProjectedDoc where
  title : Option String
  author : Option String
  price : Option Rat
deriving DecidableEq

/-- Step 7: projected read of every document. -/
def step7Projection (c : Collection) : List ProjectedDoc :=
  c.map (fun d => ⟨d.title, d.author, d.price⟩)

/-- MongoDB's sort order on the `price` field values: a missing field sorts
as null, before every number. -/
def priceLe : Option Rat → Option Rat → Prop
  | none, _ => True
  | some _, none => False
  | some x, some y => x ≤ y

instance : DecidableRel priceLe := fun a b =>
  match a, b with
  | none, _ => .isTrue trivial
  | some _, none => .isFalse id
  | some x, some y => inferInstanceAs (Decidable (x ≤ y))

/-- Sort key of `.sort({price: 1})`. -/
def ascByPrice (a b : Doc) : Prop := priceLe a.price b.price

/-- Sort key of `.sort({price: -1})`. -/
def descByPrice (a b : Doc) : Prop := priceLe b.price a.price

instance : DecidableRel ascByPrice := fun a b =>
  inferInstanceAs (Decidable (priceLe a.price b.price))

instance : DecidableRel descByPrice := fun a b =>
  inferInstanceAs (Decidable (priceLe b.price a.price))

instance : IsTotal (Option Rat) priceLe where
  total a b := by
    cases a with
    | none => exact Or.inl trivial
    | some x =>
      cases b with
      | none => exact Or.inr trivial
      | some y => exact le_total x y

instance : IsTrans (Option Rat) priceLe where
  trans a b c hab hbc := by
    cases a with
    | none => exact trivial
    | some x =>
      cases b with
      | none => exact absurd hab id
      | some y =>
        cases c with
        | none => exact absurd hbc id
        | some z => exact le_trans hab hbc

instance : IsTotal Doc ascByPrice where
  total a b := IsTotal.total (r := priceLe) a.price b.price

instance : IsTrans Doc ascByPrice where
  trans a b c hab hbc := IsTrans.trans (r := priceLe) _ _ _ hab hbc

instance : IsTotal Doc descByPrice where
  total a b := (IsTotal.total (r := priceLe) b.price a.price).symm.symm

instance : IsTrans Doc descByPrice where
  trans a b c hab hbc := IsTrans.trans (r := priceLe) _ _ _ hbc hab

/-- Step 8: `books.find().sort({price:1}).limit(5)`. -/
def step8SortAsc (c : Collection) : Collection :=
  (List.insertionSort ascByPrice c).take 5

/-- Step 9: `books.find().sort({price:-1}).limit(5)`. -/
def step9SortDesc (c : Collection) : Collection :=
  (List.insertionSort descByPrice c).take 5

/-- `const page = 2` (line 72). -/
def page : Nat := 2

/-- `const pageSize = 5` (line 73). -/
def pageSize : Nat := 5

/-- `const skip = (page - 1) * pageSize` (line 74). -/
def skip : Nat := (page - 1) * pageSize

/-- Step 10: `books.find().skip(skip).limit(pageSize)`. -/
def step10Paginate (c : Collection) : Collection :=
  (c.drop skip).take pageSize

/-- The `$group` key `"$genre"`: a missing field groups under the null key. -/
def genreKey (d : Doc) : Option String := d.genre

/-- `$avg: "$price"` over one group: MongoDB averages the numeric values and
returns null when the group has none. -/
def avgPrice (ds : List Doc) : Option Rat :=
  let ps := ds.filterMap Doc.price
  if ps.length = 0 then none else some (ps.sum / ps.length)

/-- Step 11: `aggregate([{ $group: { _id: "$genre", averagePrice: { $avg: "$price" } } }])`:
one output row per distinct genre value occurring in the collection. -/
def groupAvgByGenre (c : Collection) : List (Option String × Option Rat) :=
  (c.map genreKey).dedup.map
    (fun k => (k, avgPrice (c.filter (fun d => decide (genreKey d = k)))))

/-- Step 11 as a state transition: aggregation reads the collection and
returns its result without mutating anything. -/
def step11GenreAvg (c : Collection) : Collection × List (Option String × Option Rat) :=
  (c, groupAvgByGenre c)

/-- `{$group: {_id: "$author", bookCount: {$sum: 1}}}` of step 12. -/
def authorCounts (c : Collection) : List (Option String × Nat) :=
  (c.map Doc.author).dedup.map
    (fun k => (k, (c.filter (fun d => decide (d.author = k))).length))

/-- The `{$sort: {bookCount: -1}}` order of step 12. -/
def countDesc (a b : Option String × Nat) : Prop := b.2 ≤ a.2

instance : DecidableRel countDesc := fun a b =>
  inferInstanceAs (Decidable (b.2 ≤ a.2))

/-- Step 12: author with the most books (group, sort by count descending,
take 1). -/
def step12TopAuthor (c : Collection) : List (Option String × Nat) :=
  (List.insertionSort countDesc (authorCounts c)).take 1

/-- `{$divide: ["$published_year", 10]}`: real division; null when the field
is missing. -/
def divideExpr (o : Option Int) : Option Rat := o.map (fun y => (y : Rat) / 10)

/-- `{$floor: ...}`: floor of the numeric argument; null propagates. -/
def floorExpr (o : Option Rat) : Option Int := o.map (fun q => ⌊q⌋)

/-- `{$multiply: [..., 10]}`: multiplication; null propagates. -/
def multiplyExpr (o : Option Int) : Option Int := o.map (fun z => z * 10)

/-- The `decade` value step 13's `$project` stage computes for a document:
`{$multiply: [{$floor: {$divide: ["$published_year", 10]}}, 10]}`. -/
def decadeExpr (d : Doc) : Option Int :=
  multiplyExpr (floorExpr (divideExpr d.published_year))

/-- Step 13's `$group` stage: one row per distinct decade value, counting
the documents that produced it. -/
def decadeCounts (c : Collection) : List (Option Int × Nat) :=
  (c.map decadeExpr).dedup.map
    (fun k => (k, (c.filter (fun d => decide (decadeExpr d = k))).length))

/-- MongoDB's ascending order on the decade `_id` keys: null sorts before
every number. -/
def keyLe : Option Int → Option Int → Prop
  | none, _ => True
  | some _, none => False
  | some x, some y => x ≤ y

instance : DecidableRel keyLe := fun a b =>
  match a, b with
  | none, _ => .isTrue trivial
  | some _, none => .isFalse id
  | some x, some y => inferInstanceAs (Decidable (x ≤ y))

/-- The `{$sort: {_id: 1}}` order of step 13. -/
def decadeRowLe (a b : Option Int × Nat) : Prop := keyLe a.1 b.1

instance : DecidableRel decadeRowLe := fun a b =>
  inferInstanceAs (Decidable (keyLe a.1 b.1))

instance : IsTotal (Option Int × Nat) decadeRowLe where
  total a b := by
    obtain ⟨a1, a2⟩ := a
    obtain ⟨b1, b2⟩ := b
    unfold decadeRowLe
    dsimp only
    cases a1 with
    | none => exact Or.inl trivial
    | some x =>
      cases b1 with
      | none => exact Or.inr trivial
      | some y =>
        rcases le_total x y with h | h
        · exact Or.inl h
        · exact Or.inr h

instance : IsTrans (Option Int × Nat) decadeRowLe where
  trans a b c hab hbc := by
    obtain ⟨a1, a2⟩ := a
    obtain ⟨b1, b2⟩ := b
    obtain ⟨c1, c2⟩ := c
    unfold decadeRowLe at *
    dsimp only at *
    cases a1 with
    | none => exact trivial
    | some x =>
      cases b1 with
      | none => exact absurd hab id
      | some y =>
        cases c1 with
        | none => exact absurd hbc id
        | some z => exact le_trans hab hbc

/-- Step 13: the full decade pipeline `$project` / `$group` / `$sort {_id: 1}`. -/
def step13DecadeAgg (c : Collection) : List (Option Int × Nat) :=
  List.insertionSort decadeRowLe (decadeCounts c)

/-- An index specification: the ordered field/direction pairs of a
`createIndex` argument. -/
abbrev IndexSpec := List (String × Int)

/-- `{ title: 1 }` of step 14 (line 123). -/
def titleIndex : IndexSpec := [("title", 1)]

/-- `{ author: 1, published_year: 1 }` of step 15 (line 127). -/
def authorYearIndex : IndexSpec := [("author", 1), ("published_year", 1)]

/-- `createIndex(spec)`: MongoDB creates the index unless an identical one
already exists, in which case the call succeeds without effect. -/
def createIndex (spec : IndexSpec) (idxs : List IndexSpec) : List IndexSpec :=
  if spec ∈ idxs then idxs else idxs ++ [spec]

/-- The database state the script can observe and mutate: the `books`
collection and its set of indexes. -/
structure DBState where
  books : Collection
  indexes : List IndexSpec
deriving DecidableEq

/-- Run the awaited steps in order, each possibly throwing.  Returns the
state reached, the first error thrown (if any), and how many steps were
attempted; once a step throws, no later step runs. -/
def execSteps {σ ε : Type} : List (σ → Except ε σ) → σ → σ × Option ε × Nat
  | [], s => (s, none, 0)
  | op :: ops, s =>
    match op s with
    | .error e => (s, some e, 1)
    | .ok s' =>
      let r := execSteps ops s'
      (r.1, r.2.1, r.2.2 + 1)

/-- Run a prefix of steps, succeeding only if all of them do. -/
def runAllOk {σ ε : Type} : List (σ → Except ε σ) → σ → Option σ
  | [], s => some s
  | op :: ops, s =>
    match op s with
    | .error _ => none
    | .ok s' => runAllOk ops s'

/-- The observable outcome of one execution of `runQueries`:
the final database state, the error the single top-level `catch` absorbed
(if any), the number of steps attempted, and whether the `finally` block
closed the connection. -/
structure Outcome (σ ε : Type) where
  finalState : σ
  caughtError : Option ε
  stepsAttempted : Nat
  connectionClosed : Bool
deriving DecidableEq

/-- The `try { steps } catch (err) { log } finally { close }` wrapper of
`runQueries` (lines 11, 134-139): the body runs until a step throws, the
catch absorbs the error exactly once without rethrowing, and the finally
block closes the connection on every path. -/
def runScript {σ ε : Type} (ops : List (σ → Except ε σ)) (s : σ) : Outcome σ ε :=
  let r := execSteps ops s
  ⟨r.1, r.2.1, r.2.2, true⟩

/-- The sixteen awaited operations of `runQueries`, in source order.  Reads
(steps 1-3, 6-13, 16) leave the state unchanged; step 4 updates, step 5
deletes, steps 14-15 create indexes.  Every operation's own semantics is
total: in particular a no-match update or delete succeeds. -/
def queryOps : List (DBState → Except String DBState) :=
  [ fun s => .ok s,
    fun s => .ok s,
    fun s => .ok s,
    fun s => .ok { s with books := step4Update s.books },
    fun s => .ok { s with books := step5Delete s.books },
    fun s => .ok s,
    fun s => .ok s,
    fun s => .ok s,
    fun s => .ok s,
    fun s => .ok s,
    fun s => .ok s,
    fun s => .ok s,
    fun s => .ok s,
    fun s => .ok { s with indexes := createIndex titleIndex s.indexes },
    fun s => .ok { s with indexes := createIndex authorYearIndex s.indexes },
    fun s => .ok s ]

/-- One full run of the script over a database state. -/
def runQueries (s : DBState) : Outcome DBState String := runScript queryOps s

/-- The seed document `{title: "1984", price: 10.00}` of the end-to-end
scenario. -/
def seed1984 : Doc := ⟨some "1984", none, none, none, some (10.00 : Rat), none⟩

/-- The seed document `{title: "Moby Dick"}` of the end-to-end scenario. -/
def seedMobyDick : Doc := ⟨some "Moby Dick", none, none, none, none, none⟩

/-- The seeded database of the end-to-end scenario. -/
def seededState : DBState := ⟨[seed1984, seedMobyDick], []⟩

/-! ### Helper lemmas about the one-document update and delete -/

theorem updateFirst_eq_of_no_match (p : Doc → Prop) [DecidablePred p] (f : Doc → Doc) :
    ∀ c : Collection, (∀ d ∈ c, ¬ p d) → updateFirst p f c = c := by
  intro c h
  induction c with
  | nil => rfl
  | cons d ds ih =>
    rw [updateFirst, if_neg (h d (List.mem_cons_self d ds))]
    rw [ih (fun x hx => h x (List.mem_cons_of_mem d hx))]

theorem deleteFirst_eq_of_no_match (p : Doc → Prop) [DecidablePred p] :
    ∀ c : Collection, (∀ d ∈ c, ¬ p d) → deleteFirst p c = c := by
  intro c h
  induction c with
  | nil => rfl
  | cons d ds ih =>
    rw [deleteFirst, if_neg (h d (List.mem_cons_self d ds))]
    rw [ih (fun x hx => h x (List.mem_cons_of_mem d hx))]

theorem updateFirst_cases (p : Doc → Prop) [DecidablePred p] (f : Doc → Doc) :
    ∀ c : Collection,
      updateFirst p f c = c ∨
      ∃ pre d post, c = pre ++ d :: post ∧ (∀ x ∈ pre, ¬ p x) ∧ p d ∧
        updateFirst p f c = pre ++ f d :: post := by
  intro c
  induction c with
  | nil => exact Or.inl rfl
  | cons d ds ih =>
    by_cases hd : p d
    · refine Or.inr ⟨[], d, ds, rfl, by simp, hd, ?_⟩
      rw [updateFirst, if_pos hd]
      rfl
    · rcases ih with h | ⟨pre, d', post, hc, hpre, hd', hu⟩
      · refine Or.inl ?_
        rw [updateFirst, if_neg hd, h]
      · refine Or.inr ⟨d :: pre, d', post, by rw [hc]; rfl, ?_, hd', ?_⟩
        · intro x hx
          rcases List.mem_cons.mp hx with rfl | hx
          · exact hd
          · exact hpre x hx
        · rw [updateFirst, if_neg hd, hu]
          rfl

theorem deleteFirst_cases (p : Doc → Prop) [DecidablePred p] :
    ∀ c : Collection,
      deleteFirst p c = c ∨
      ∃ pre d post, c = pre ++ d :: post ∧ (∀ x ∈ pre, ¬ p x) ∧ p d ∧
        deleteFirst p c = pre ++ post := by
  intro c
  induction c with
  | nil => exact Or.inl rfl
  | cons d ds ih =>
    by_cases hd : p d
    · refine Or.inr ⟨[], d, ds, rfl, by simp, hd, ?_⟩
      rw [deleteFirst, if_pos hd]
      rfl
    · rcases ih with h | ⟨pre, d', post, hc, hpre, hd', hu⟩
      · refine Or.inl ?_
        rw [deleteFirst, if_neg hd, h]
      · refine Or.inr ⟨d :: pre, d', post, by rw [hc]; rfl, ?_, hd', ?_⟩
        · intro x hx
          rcases List.mem_cons.mp hx with rfl | hx
          · exact hd
          · exact hpre x hx
        · rw [deleteFirst, if_neg hd, hu]
          rfl

theorem mem_updateFirst_of_not_p (p : Doc → Prop) [DecidablePred p] (f : Doc → Doc)
    (c : Collection) (d : Doc) (hmem : d ∈ c) (hp : ¬ p d) :
    d ∈ updateFirst p f c := by
  induction c with
  | nil => exact absurd hmem (List.not_mem_nil d)
  | cons x xs ih =>
    rw [updateFirst]
    by_cases hx : p x
    · rw [if_pos hx]
      rcases List.mem_cons.mp hmem with rfl | h
      · exact absurd hx hp
      · exact List.mem_cons_of_mem _ h
    · rw [if_neg hx]
      rcases List.mem_cons.mp hmem with rfl | h
      · exact List.mem_cons_self _ _
      · exact List.mem_cons_of_mem _ (ih h)

theorem mem_updateFirst_elim (p : Doc → Prop) [DecidablePred p] (f : Doc → Doc)
    (c : Collection) (d : Doc) (hmem : d ∈ updateFirst p f c) :
    d ∈ c ∨ ∃ d₀, d₀ ∈ c ∧ p d₀ ∧ d = f d₀ := by
  induction c with
  | nil => exact absurd hmem (List.not_mem_nil d)
  | cons x xs ih =>
    rw [updateFirst] at hmem
    by_cases hx : p x
    · rw [if_pos hx] at hmem
      rcases List.mem_cons.mp hmem with rfl | h
      · exact Or.inr ⟨x, List.mem_cons_self _ _, hx, rfl⟩
      · exact Or.inl (List.mem_cons_of_mem _ h)
    · rw [if_neg hx] at hmem
      rcases List.mem_cons.mp hmem with rfl | h
      · exact Or.inl (List.mem_cons_self _ _)
      · rcases ih h with h' | ⟨d₀, hd₀, hpd₀, hfd₀⟩
        · exact Or.inl (List.mem_cons_of_mem _ h')
        · exact Or.inr ⟨d₀, List.mem_cons_of_mem _ hd₀, hpd₀, hfd₀⟩

/-! ### Claim theorems -/

/-- C1: starting from a collection seeded with `{title:"1984", price: 10.00}`
and `{title:"Moby Dick"}`, after the full sequence the document titled
`1984` reads back with price `15.99` and no document titled `Moby Dick`
remains; moreover step 4's update touches no document outside the filter
`{title: "1984"}` and every document it produces is either an original or an
original with only its price overwritten to `15.99`. -/
theorem endToEnd_seeded_scenario :
    (step4ReadBack (runQueries seededState).finalState.books =
      some { seed1984 with price := some (15.99 : Rat) }) ∧
    (∀ d ∈ (runQueries seededState).finalState.books, d.title ≠ some "Moby Dick") ∧
    (∀ d : Doc, (setPrice1599 d).price = some (15.99 : Rat) ∧
      (setPrice1599 d).title = d.title ∧ (setPrice1599 d).author = d.author ∧
      (setPrice1599 d).genre = d.genre ∧
      (setPrice1599 d).published_year = d.published_year ∧
      (setPrice1599 d).in_stock = d.in_stock) ∧
    (∀ c : Collection, ∀ d ∈ c, ¬ matchesTitle1984 d → d ∈ step4Update c) ∧
    (∀ c : Collection, ∀ d ∈ step4Update c,
      d ∈ c ∨ ∃ d₀, d₀ ∈ c ∧ matchesTitle1984 d₀ ∧ d = setPrice1599 d₀) := by
  refine ⟨rfl, ?_, ?_, ?_, ?_⟩
  · intro d hd
    have hbooks : (runQueries seededState).finalState.books =
        [{ seed1984 with price := some (15.99 : Rat) }] := rfl
    rw [hbooks] at hd
    rcases List.mem_singleton.mp hd with rfl
    intro h
    exact absurd (Option.some.inj h) (by decide)
  · intro d
    exact ⟨rfl, rfl, rfl, rfl, rfl, rfl⟩
  · intro c d hd hp
    exact mem_updateFirst_of_not_p matchesTitle1984 setPrice1599 c d hd hp
  · intro c d hd
    exact mem_updateFirst_elim matchesTitle1984 setPrice1599 c d hd

/-- Witness for C1: instantiating the hypothesis-bearing parts at the seed
document `Moby Dick` inside a one-element collection. -/
theorem endToEnd_seeded_scenario_witness :
    seedMobyDick ∈ ([seedMobyDick] : Collection) ∧
    ¬ matchesTitle1984 seedMobyDick ∧
    seedMobyDick ∈ step4Update [seedMobyDick] ∧
    (seedMobyDick ∈ ([seedMobyDick] : Collection) ∨
      ∃ d₀, d₀ ∈ ([seedMobyDick] : Collection) ∧ matchesTitle1984 d₀ ∧
        seedMobyDick = setPrice1599 d₀) := by
  have h1 : seedMobyDick ∈ ([seedMobyDick] : Collection) := List.mem_singleton_self _
  have h2 : ¬ matchesTitle1984 seedMobyDick := by
    intro h
    exact absurd (Option.some.inj h) (by decide)
  have h3 : seedMobyDick ∈ step4Update [seedMobyDick] :=
    endToEnd_seeded_scenario.2.2.2.1 [seedMobyDick] seedMobyDick h1 h2
  exact ⟨h1, h2, h3, endToEnd_seeded_scenario.2.2.2.2 [seedMobyDick] seedMobyDick h3⟩

/-- C9: step 4's `updateOne` either leaves the collection unchanged or
rewrites exactly the first document matching `{title:"1984"}`, replacing it
by the same document with only the price overwritten; step 5's `deleteOne`
either leaves the collection unchanged or removes exactly the first document
matching `{title:"Moby Dick"}`; all other documents are untouched even when
several share the title. -/
theorem mutation_frame :
    ∀ c : Collection,
      (step4Update c = c ∨
        ∃ pre d post, c = pre ++ d :: post ∧ (∀ x ∈ pre, ¬ matchesTitle1984 x) ∧
          matchesTitle1984 d ∧ step4Update c = pre ++ setPrice1599 d :: post) ∧
      (step5Delete c = c ∨
        ∃ pre d post, c = pre ++ d :: post ∧ (∀ x ∈ pre, ¬ matchesMobyDick x) ∧
          matchesMobyDick d ∧ step5Delete c = pre ++ post) ∧
      (∀ d : Doc, (setPrice1599 d).title = d.title ∧
        (setPrice1599 d).author = d.author ∧ (setPrice1599 d).genre = d.genre ∧
        (setPrice1599 d).published_year = d.published_year ∧
        (setPrice1599 d).in_stock = d.in_stock) := by
  intro c
  refine ⟨updateFirst_cases matchesTitle1984 setPrice1599 c,
    deleteFirst_cases matchesMobyDick c, ?_⟩
  intro d
  exact ⟨rfl, rfl, rfl, rfl, rfl⟩

/-- Witness for C9: the frame property instantiated at the seeded
collection. -/
theorem mutation_frame_witness :
    (step4Update [seed1984, seedMobyDick] = [seed1984, seedMobyDick] ∨
      ∃ pre d post, [seed1984, seedMobyDick] = pre ++ d :: post ∧
        (∀ x ∈ pre, ¬ matchesTitle1984 x) ∧ matchesTitle1984 d ∧
        step4Update [seed1984, seedMobyDick] = pre ++ setPrice1599 d :: post) ∧
    (step5Delete [seed1984, seedMobyDick] = [seed1984, seedMobyDick] ∨
      ∃ pre d post, [seed1984, seedMobyDick] = pre ++ d :: post ∧
        (∀ x ∈ pre, ¬ matchesMobyDick x) ∧ matchesMobyDick d ∧
        step5Delete [seed1984, seedMobyDick] = pre ++ post) ∧
    (∀ d : Doc, (setPrice1599 d).title = d.title ∧
      (setPrice1599 d).author = d.author ∧ (setPrice1599 d).genre = d.genre ∧
      (setPrice1599 d).published_year = d.published_year ∧
      (setPrice1599 d).in_stock = d.in_stock) :=
  mutation_frame [seed1984, seedMobyDick]

/-- C3: a no-match update or delete is a silent no-op: when no document
matches `{title:"1984"}` step 4 leaves the collection unchanged, when no
document matches `{title:"Moby Dick"}` step 5 leaves it unchanged, no error
is raised on any state (the full sixteen-step sequence always completes),
and step 5's success message is printed unconditionally. -/
theorem notFound_treated_as_success :
    (∀ c : Collection, (∀ d ∈ c, ¬ matchesTitle1984 d) → step4Update c = c) ∧
    (∀ c : Collection, (∀ d ∈ c, ¬ matchesMobyDick d) → step5Delete c = c) ∧
    (∀ s : DBState, (runQueries s).caughtError = none ∧
      (runQueries s).stepsAttempted = queryOps.length ∧
      (runQueries s).stepsAttempted = 16) ∧
    (∀ c : Collection, step5Message c = "Deleted 'Moby Dick' successfully") := by
  refine ⟨?_, ?_, ?_, ?_⟩
  · exact updateFirst_eq_of_no_match matchesTitle1984 setPrice1599
  · exact deleteFirst_eq_of_no_match matchesMobyDick
  · intro s
    exact ⟨rfl, rfl, rfl⟩
  · intro c
    rfl

/-- Witness for C3: a collection holding only the `Moby Dick` seed has no
match for `{title:"1984"}`, and the empty collection has no match for
`{title:"Moby Dick"}`; both no-match mutations are no-ops. -/
theorem notFound_treated_as_success_witness :
    (∀ d ∈ ([seedMobyDick] : Collection), ¬ matchesTitle1984 d) ∧
    step4Update [seedMobyDick] = [seedMobyDick] ∧
    (∀ d ∈ ([] : Collection), ¬ matchesMobyDick d) ∧
    step5Delete [] = [] := by
  have h1 : ∀ d ∈ ([seedMobyDick] : Collection), ¬ matchesTitle1984 d := by
    intro d hd
    rcases List.mem_singleton.mp hd with rfl
    intro h
    exact absurd (Option.some.inj h) (by decide)
  have h2 : ∀ d ∈ ([] : Collection), ¬ matchesMobyDick d := by
    intro d hd
    exact absurd hd (List.not_mem_nil d)
  exact ⟨h1, notFound_treated_as_success.1 [seedMobyDick] h1, h2,
    notFound_treated_as_success.2.1 [] h2⟩

theorem execSteps_stops_at_error {σ ε : Type} :
    ∀ (pre : List (σ → Except ε σ)) (op : σ → Except ε σ)
      (post : List (σ → Except ε σ)) (s₀ s₁ : σ) (e : ε),
      runAllOk pre s₀ = some s₁ → op s₁ = .error e →
      execSteps (pre ++ op :: post) s₀ = (s₁, some e, pre.length + 1) := by
  intro pre
  induction pre with
  | nil =>
    intro op post s₀ s₁ e h hop
    cases Option.some.inj h
    rw [List.nil_append, execSteps, hop]
    rfl
  | cons p ps ih =>
    intro op post s₀ s₁ e h hop
    rw [List.cons_append, execSteps]
    rw [runAllOk] at h
    cases hp : p s₀ with
    | error e' => rw [hp] at h; exact absurd h (by simp)
    | ok s' =>
      rw [hp] at h
      dsimp only at h ⊢
      rw [ih op post s' s₁ e h hop]
      rfl

/-- C2: the `try`/`catch`/`finally` of `runQueries` closes the connection on
every path; and whenever a prefix of the awaited steps succeeds and the next
one throws, the error is absorbed by the single top-level catch, no step
after the throwing one is attempted, and the connection is still closed. -/
theorem singleCatch_and_unconditional_cleanup :
    (∀ {σ ε : Type} (ops : List (σ → Except ε σ)) (s : σ),
      (runScript ops s).connectionClosed = true) ∧
    (∀ s : DBState, (runQueries s).connectionClosed = true) ∧
    (∀ {σ ε : Type} (pre : List (σ → Except ε σ)) (op : σ → Except ε σ)
      (post : List (σ → Except ε σ)) (s₀ s₁ : σ) (e : ε),
      runAllOk pre s₀ = some s₁ → op s₁ = .error e →
      runScript (pre ++ op :: post) s₀ = ⟨s₁, some e, pre.length + 1, true⟩) := by
  refine ⟨fun ops s => rfl, fun s => rfl, ?_⟩
  intro σ ε pre op post s₀ s₁ e h hop
  rw [runScript, execSteps_stops_at_error pre op post s₀ s₁ e h hop]

/-- Witness for C2: a one-step successful prefix followed by a throwing
step and one never-reached step, on a concrete empty database state. -/
theorem singleCatch_and_unconditional_cleanup_witness :
    runAllOk ([fun s => Except.ok s] : List (DBState → Except String DBState))
        ⟨[], []⟩ = some ⟨[], []⟩ ∧
    (fun _ : DBState => (Except.error "boom" : Except String DBState)) ⟨[], []⟩ =
      .error "boom" ∧
    runScript (([fun s => Except.ok s] : List (DBState → Except String DBState)) ++
        (fun _ : DBState => (Except.error "boom" : Except String DBState)) ::
        [fun s => Except.ok s]) ⟨[], []⟩ =
      ⟨⟨[], []⟩, some "boom", 2, true⟩ :=
  ⟨rfl, rfl, singleCatch_and_unconditional_cleanup.2.2
    ([fun s => Except.ok s] : List (DBState → Except String DBState))
    (fun _ : DBState => (Except.error "boom" : Except String DBState))
    [fun s => Except.ok s] (⟨[], []⟩ : DBState) (⟨[], []⟩ : DBState) "boom" rfl rfl⟩

/-- C4: with the literals `page = 2` and `pageSize = 5`, step 10 skips
exactly `(page - 1) * pageSize = 5` documents and returns at most 5: the
result's `i`-th element is the collection's `(5+i)`-th element, and its
length never exceeds 5, for every collection. -/
theorem pagination_skip_five_limit_five :
    skip = 5 ∧ pageSize = 5 ∧ skip = (page - 1) * pageSize ∧
    (∀ l : Collection, (step10Paginate l).length ≤ 5) ∧
    (∀ l : Collection, ∀ i : Nat, i < pageSize →
      (step10Paginate l)[i]? = l[5 + i]?) := by
  refine ⟨rfl, rfl, rfl, ?_, ?_⟩
  · intro l
    exact List.length_take_le 5 _
  · intro l i hi
    have h5 : i < 5 := hi
    calc (step10Paginate l)[i]? = ((l.drop 5).take 5)[i]? := rfl
      _ = (l.drop 5)[i]? := by rw [List.getElem?_take]; simp [h5]
      _ = l[5 + i]? := List.getElem?_drop l 5 i

/-- Witness for C4: index 0 of page 2 over the empty collection. -/
theorem pagination_skip_five_limit_five_witness :
    (0 < pageSize) ∧ (step10Paginate ([] : Collection))[0]? = ([] : Collection)[5 + 0]? :=
  ⟨by decide, pagination_skip_five_limit_five.2.2.2.2 [] 0 (by decide)⟩

/-- C5: step 8's result is sorted with non-decreasing prices, step 9's
result is sorted with non-increasing prices, and each holds at most 5
documents, for every collection. -/
theorem sorted_reads_postconditions :
    ∀ c : Collection,
      List.Sorted ascByPrice (step8SortAsc c) ∧
      List.Sorted descByPrice (step9SortDesc c) ∧
      (step8SortAsc c).length ≤ 5 ∧ (step9SortDesc c).length ≤ 5 := by
  intro c
  refine ⟨?_, ?_, List.length_take_le 5 _, List.length_take_le 5 _⟩
  · exact List.Pairwise.sublist (List.take_sublist 5 _)
      (List.sorted_insertionSort ascByPrice c)
  · exact List.Pairwise.sublist (List.take_sublist 5 _)
      (List.sorted_insertionSort descByPrice c)

/-- Witness for C5: the postconditions instantiated at the empty
collection. -/
theorem sorted_reads_postconditions_witness :
    List.Sorted ascByPrice (step8SortAsc []) ∧
    List.Sorted descByPrice (step9SortDesc []) ∧
    (step8SortAsc []).length ≤ 5 ∧ (step9SortDesc []).length ≤ 5 :=
  sorted_reads_postconditions []

/-- C6: the decade `$project` stage maps a document with
`published_year = y` to `floor(y/10)*10`; in particular a 1987 book lands in
bucket 1980 and not 1990, and step 13's output is sorted ascending by
decade. -/
theorem decade_bucketing :
    decadeExpr ⟨none, none, none, some 1987, none, none⟩ = some 1980 ∧
    decadeExpr ⟨none, none, none, some 1987, none, none⟩ ≠ some 1990 ∧
    (∀ d : Doc, ∀ y : Int, d.published_year = some y →
      decadeExpr d = some (⌊(y : Rat) / 10⌋ * 10)) ∧
    (∀ c : Collection, List.Sorted decadeRowLe (step13DecadeAgg c)) := by
  have hval : decadeExpr ⟨none, none, none, some 1987, none, none⟩ = some 1980 := by
    simp only [decadeExpr, divideExpr, floorExpr, multiplyExpr, Option.map_some']
    norm_num
  refine ⟨hval, ?_, ?_, ?_⟩
  · intro h
    rw [hval] at h
    exact absurd (Option.some.inj h) (by decide)
  · intro d y h
    simp [decadeExpr, divideExpr, floorExpr, multiplyExpr, h]
  · intro c
    exact List.sorted_insertionSort decadeRowLe _

/-- Witness for C6: the 1987 document instantiates the bucket formula. -/
theorem decade_bucketing_witness :
    (⟨none, none, none, some 1987, none, none⟩ : Doc).published_year = some 1987 ∧
    decadeExpr ⟨none, none, none, some 1987, none, none⟩ =
      some (⌊(1987 : Rat) / 10⌋ * 10) :=
  ⟨rfl, decade_bucketing.2.2.1 _ 1987 rfl⟩

/-- C7: the genre-average aggregation reads the collection without mutating
it, so running it twice against the unchanged collection returns identical
grouped averages. -/
theorem genreAvg_idempotent :
    ∀ c : Collection,
      (step11GenreAvg c).1 = c ∧
      (step11GenreAvg (step11GenreAvg c).1).2 = (step11GenreAvg c).2 :=
  fun _ => ⟨rfl, rfl⟩

/-- Witness for C7: the aggregation run twice over the seeded collection. -/
theorem genreAvg_idempotent_witness :
    (step11GenreAvg [seed1984, seedMobyDick]).1 = [seed1984, seedMobyDick] ∧
    (step11GenreAvg (step11GenreAvg [seed1984, seedMobyDick]).1).2 =
      (step11GenreAvg [seed1984, seedMobyDick]).2 :=
  genreAvg_idempotent [seed1984, seedMobyDick]

/-- C8: creating the same index twice leaves the index list exactly as one
creation does; the spec ends up present, and no duplicate entry is added;
instantiated at both of the script's index specifications. -/
theorem createIndex_idempotent :
    (∀ idxs : List IndexSpec,
      createIndex titleIndex (createIndex titleIndex idxs) =
        createIndex titleIndex idxs ∧
      createIndex authorYearIndex (createIndex authorYearIndex idxs) =
        createIndex authorYearIndex idxs) ∧
    (∀ (spec : IndexSpec) (idxs : List IndexSpec),
      createIndex spec (createIndex spec idxs) = createIndex spec idxs ∧
      spec ∈ createIndex spec idxs ∧
      (idxs.Nodup → (createIndex spec idxs).Nodup)) := by
  have hmem : ∀ (spec : IndexSpec) (idxs : List IndexSpec),
      spec ∈ createIndex spec idxs := by
    intro spec idxs
    rw [createIndex]
    by_cases h : spec ∈ idxs
    · rwa [if_pos h]
    · rw [if_neg h]
      exact List.mem_append_right idxs (List.mem_singleton_self spec)
  have hidem : ∀ (spec : IndexSpec) (idxs : List IndexSpec),
      createIndex spec (createIndex spec idxs) = createIndex spec idxs := by
    intro spec idxs
    conv_lhs => rw [createIndex]
    rw [if_pos (hmem spec idxs)]
  have hnodup : ∀ (spec : IndexSpec) (idxs : List IndexSpec),
      idxs.Nodup → (createIndex spec idxs).Nodup := by
    intro spec idxs h
    rw [createIndex]
    by_cases hs : spec ∈ idxs
    · rwa [if_pos hs]
    · rw [if_neg hs]
      simp [List.nodup_append, h, hs]
  exact ⟨fun idxs => ⟨hidem titleIndex idxs, hidem authorYearIndex idxs⟩,
    fun spec idxs => ⟨hidem spec idxs, hmem spec idxs, hnodup spec idxs⟩⟩

/-- Witness for C8: the Nodup preservation instantiated at the empty index
list and the title index. -/
theorem createIndex_idempotent_witness :
    ([] : List IndexSpec).Nodup ∧ (createIndex titleIndex []).Nodup :=
  ⟨List.nodup_nil, (createIndex_idempotent.2 titleIndex []).2.2 List.nodup_nil⟩

/-- C10: step 13's pipeline partitions the collection: every document gets
exactly one decade key (a missing `published_year` yields the null key), so
the per-decade counts sum to the collection's size, for every collection. -/
theorem decade_partition :
    (∀ c : Collection, ((step13DecadeAgg c).map Prod.snd).sum = c.length) ∧
    (∀ d : Doc, d.published_year = none → decadeExpr d = none) := by
  constructor
  · intro c
    have hperm : List.Perm ((step13DecadeAgg c).map Prod.snd)
        ((decadeCounts c).map Prod.snd) :=
      (List.perm_insertionSort decadeRowLe (decadeCounts c)).map Prod.snd
    rw [hperm.sum_eq, decadeCounts, List.map_map]
    have hlen := List.sum_map_count_dedup_eq_length (c.map decadeExpr)
    rw [List.length_map] at hlen
    rw [← hlen]
    congr 1
    apply List.map_congr_left
    intro k _
    dsimp only [Function.comp]
    rw [← List.countP_eq_length_filter]
    simp only [List.count, List.countP_map]
    apply List.countP_congr
    intro d _
    simp [Function.comp, beq_iff_eq]
  · intro d h
    simp [decadeExpr, divideExpr, floorExpr, multiplyExpr, h]

/-- Witness for C10: a document without `published_year` lands in the null
bucket. -/
theorem decade_partition_witness :
    seedMobyDick.published_year = none ∧ decadeExpr seedMobyDick = none :=
  ⟨rfl, decade_partition.2 seedMobyDick rfl⟩

end Queries





